import Mathlib

/-!
Verification of the conversation-to-HTML converter (`conversations_to_html.py`).

The development shallowly embeds the content-model normalization pipeline of the
converter: JSON values, the tree walker / sequencer (`process_messages`), the
content classifier (`process_content_type`), the content reducers
(`process_conversation_content`, `process_code_content`,
`process_thoughts_content`, `process_multiple_thoughts_content`,
`process_text_upload_content`, `process_user_editable_content`,
`process_other_content_types`), the asset resolver (`process_image_content`,
`find_image`, `copy_file_to_dir_if_new`, `create_file_if_new`), and the page
generation loop (`generate_html`).

External collaborators (the `glob` module, `shutil.copy2` outcomes, Unicode NFKD
normalization, the markdown renderer, the HTML/CSS page templates and
`strftime` date formatting) are modelled as fields of an environment record
`Env`, matching the spec's stance that they are interfaces around the
normalization core.  Filesystem writes are modelled by an explicit map from
paths to contents (`FS`) threaded through the pipeline, and diagnostics printed
to the text stream are collected in a list.  Python floats are modelled as
rationals; Python exceptions are modelled with `Except`.
-/

/-- JSON values, the input data model.  Numbers are modelled as rationals
(the source manipulates them only through comparisons and fallbacks).
Objects are association lists in insertion order, matching Python's
insertion-ordered `dict` iteration. -/
inductive Json where
  | null : Json
  | bool : Bool → Json
  | num : ℚ → Json
  | str : String → Json
  | arr : List Json → Json
  | obj : List (String × Json) → Json
deriving Repr

/-- Python `dict.get(k)` / `k in d`: association-list lookup (keys are unique in
a JSON object, so first match is the match). -/
def Json.get? (j : Json) (k : String) : Option Json :=
  match j with
  | .obj kvs => kvs.lookup k
  | _ => none

/-- Python `d.get(k)` result, with `None` for a missing key (and for lookup on a
non-dict, which the source never exercises on the successful paths). -/
def Json.getJ (j : Json) (k : String) : Json :=
  (j.get? k).getD Json.null

/-- Python `k in d`. -/
def Json.hasKey (j : Json) (k : String) : Bool :=
  (j.get? k).isSome

def Json.isObj : Json → Bool
  | .obj _ => true
  | _ => false

def Json.isNull : Json → Bool
  | .null => true
  | _ => false

/-- Python `x == "lit"` for a string literal: only a `str` value can compare
equal to a string. -/
def Json.isStr (j : Json) (s : String) : Bool :=
  match j with
  | .str t => t == s
  | _ => false

/-- Python truthiness (`if not x`, `x or y`): `None`, `False`, `0`, `""`, `[]`
and `{}` are falsy. -/
def Json.truthy : Json → Bool
  | .null => false
  | .bool b => b
  | .num q => !(q == 0)
  | .str s => !(s == "")
  | .arr xs => !xs.isEmpty
  | .obj kvs => !kvs.isEmpty

/-- Python `a or b` on JSON values. -/
def pyOr (a b : Json) : Json :=
  if a.truthy then a else b

/-- Python `str(x)` as used by the source's f-strings.  Strings render as
themselves (the only case the pipeline's payloads exercise); container reprs
are abbreviated and numbers use the rational printer, as no content reaching an
f-string in the claims is a container or a number. -/
def pyStr : Json → String
  | .null => "None"
  | .bool b => if b then "True" else "False"
  | .num q => toString q
  | .str s => s
  | .arr _ => "<list>"
  | .obj _ => "<dict>"

/-! Character-list string primitives.  The byte-position loops of core
`String` (`substrEq`, `replace`, `splitOn`, …) use well-founded recursion,
which the kernel cannot evaluate, so the embedding models Python's string
operations over `List Char` instead. -/

def listPrefixOf : List Char → List Char → Bool
  | [], _ => true
  | _ :: _, [] => false
  | a :: as, b :: bs => a == b && listPrefixOf as bs

/-- Python `s.startswith(pre)`. -/
def pyStartsWith (s pre : String) : Bool :=
  listPrefixOf pre.toList s.toList

/-- Python `s[n:]`. -/
def pyDrop (s : String) (n : ℕ) : String :=
  String.mk (s.toList.drop n)

/-- Python `s[:n]`. -/
def pyTake (s : String) (n : ℕ) : String :=
  String.mk (s.toList.take n)

/-- Remove the last `n` characters. -/
def pyDropRight (s : String) (n : ℕ) : String :=
  String.mk (s.toList.take (s.toList.length - n))

/-- Python `s.lower()` (over the ASCII range the source exercises). -/
def pyLower (s : String) : String :=
  String.mk (s.toList.map Char.toLower)

def listStrip (cs : List Char) : List Char :=
  ((cs.dropWhile Char.isWhitespace).reverse.dropWhile Char.isWhitespace).reverse

/-- Python `s.strip()`. -/
def pyStrip (s : String) : String :=
  String.mk (listStrip s.toList)

/-- Python `s.replace(a, b)` for one-character patterns. -/
def charReplace (a b : Char) (s : String) : String :=
  String.mk (s.toList.map fun c => if c = a then b else c)

/-- Value of a nonempty list of decimal digits. -/
def parseNatDigits? (cs : List Char) : Option ℕ :=
  if cs.isEmpty then none
  else cs.foldlM (fun acc c => if c.isDigit then some (acc * 10 + (c.toNat - 48)) else none) 0

/-- Model of Python `float(s)` on strings: optional surrounding whitespace,
optional sign, decimal digits with an optional fractional part ("1", "1.5",
"1.", ".5").  Exotic spellings (exponents, inf, nan) are not modelled; no
claim depends on them, only on parse failure falling back to `0.0`. -/
def parseFloat? (s : String) : Option ℚ :=
  let cs := listStrip s.toList
  let signed : ℚ × List Char :=
    match cs with
    | '-' :: rest => (-1, rest)
    | '+' :: rest => (1, rest)
    | _ => (1, cs)
  let sign := signed.1
  match signed.2.splitOn '.' with
  | [intPart] => (parseNatDigits? intPart).map fun n => sign * (n : ℚ)
  | [intPart, fracPart] =>
    if intPart.isEmpty && fracPart.isEmpty then none
    else
      match (if intPart.isEmpty then some 0 else parseNatDigits? intPart),
            (if fracPart.isEmpty then some 0 else parseNatDigits? fracPart) with
      | some i, some f => some (sign * ((i : ℚ) + (f : ℚ) / ((10 : ℚ) ^ fracPart.length)))
      | _, _ => none
  | _ => none

/-- Model of Python `float(t)` for the timestamp fallback: numbers pass
through, booleans coerce, strings are parsed, anything else raises (→ `none`). -/
def pyFloat? : Json → Option ℚ
  | .num q => some q
  | .bool b => some (if b then (1 : ℚ) else 0)
  | .str s => parseFloat? s
  | _ => none

/-- `os.path.basename`: the final path component. -/
def basename (s : String) : String :=
  String.mk ((s.toList.reverse.takeWhile fun c => c ≠ '/').reverse)

/-- `os.path.join` for the shapes the source builds (directory, relative name). -/
def joinPath (a b : String) : String :=
  a ++ "/" ++ b

/-- The output-directory filesystem: a map from paths to contents, newest
binding first.  Only presence and contents are modelled. -/
structure FS where
  files : List (String × String)
deriving Repr, DecidableEq

/-- `os.path.exists`. -/
def FS.exists? (fs : FS) (p : String) : Bool :=
  (fs.files.lookup p).isSome

def FS.read? (fs : FS) (p : String) : Option String :=
  fs.files.lookup p

/-- A file write (`write_text` / a successful `open(..).write` / `copy2`). -/
def FS.write (fs : FS) (p c : String) : FS :=
  ⟨(p, c) :: fs.files⟩

/-- Side-effect state threaded through the pipeline: the output directory's
files and the diagnostic text stream. -/
structure St where
  fs : FS
  prints : List String
deriving Repr, DecidableEq

/-- The environment of external collaborators, fixed for a run. -/
structure Env where
  /-- `self.archive_dir`. -/
  archiveDir : String
  /-- `--user-name` label. -/
  userName : String
  /-- `--assistant-name` label. -/
  assistantName : String
  /-- `glob.glob` over the real filesystem: pattern to matching paths. -/
  globFn : String → List String
  /-- whether `shutil.copy2` raises for a given source path. -/
  copyFails : String → Bool
  /-- contents of archive files, for staging copies. -/
  archiveContents : String → String
  /-- `unicodedata.normalize("NFKD", ·)`. -/
  nfkd : String → String
  /-- the external markdown-to-HTML renderer. -/
  markdown : String → String
  /-- `get_page_html().format(title, date, css, body)` with the CSS baked in. -/
  pageTemplate : String → String → String → String
  /-- `get_index_html().format(site_title, css, items)` with the CSS baked in. -/
  indexTemplate : String → String → String
  /-- `datetime.fromtimestamp(ts).strftime(fmt)`. -/
  formatDate : ℚ → String

/-- The raised-exception taxonomy of the source, one constructor per distinct
`raise` site or Python builtin exception the pipeline can produce. -/
inductive Err where
  | keyError (k : String)
  | typeErr
  | attrError
  | fileExists (path : String)
  | unrecognizedMapping
  | unrecognizedMessage
  | unrecognizedContentFormat
  | unrecognizedContentBlock
  | unrecognizedThoughtContent
  | unexpectedAssetPointer (p : String)
  | someOtherContentType
  | unexpectedConversationFormat
  | unexpectedConversationPart
  | unexpectedUserContentFormat
  | unrecognizedRenderContent
  | notIterable
deriving Repr, DecidableEq

/-- One normalized message record, as the reducers append it:
`{"role": author, "audience": recipient, "content": text}`.  The `content`
string carries the unit kind as a `kind:`-style tag exactly as the source
builds it; the renderer recovers kind and payload by prefix. -/
structure Msg where
  role : Json
  audience : Option Json
  content : String
deriving Repr

/-- `get_recipient`: `msg['recipient']` when the key is present, else `None`. -/
def get_recipient (msg : Json) : Option Json :=
  if msg.hasKey "recipient" then some (msg.getJ "recipient") else none

/-- `get_author`: `author.get("role") or author.get("name") or "unknown"`. -/
def get_author (author : Json) : Json :=
  pyOr (author.getJ "role") (pyOr (author.getJ "name") (Json.str "unknown"))

/-- `copy_file_to_dir_if_new`: stage a source file into the output directory by
basename.  An existing destination short-circuits; a failing `shutil.copy2` is
caught and only printed; the destination path is returned in every case. -/
def copy_file_to_dir_if_new (env : Env) (st : St) (out_dir filename : String) :
    String × St :=
  let destination_file := joinPath out_dir (basename filename)
  if st.fs.exists? destination_file then (destination_file, st)
  else if env.copyFails filename then
    (destination_file, { st with prints := st.prints ++ ["file exists: " ++ destination_file] })
  else
    (destination_file, { st with fs := st.fs.write destination_file (env.archiveContents filename) })

/-- `create_file_if_new`: `open(filepath, 'x')` raises `FileExistsError` when
the path already exists, and the `except` clause re-raises the exception. -/
def create_file_if_new (st : St) (out_dir filename contents : String) :
    Except Err (String × St) :=
  let filepath := out_dir ++ "/" ++ filename
  if st.fs.exists? filepath then .error (.fileExists filepath)
  else .ok (filepath, { st with fs := st.fs.write filepath contents })

/-- `find_image`: the dalle-generation search tiers, used only when the part's
metadata has a non-null `dalle` entry. -/
def find_image (env : Env) (metadata : Json) (filename : String) : List String :=
  if metadata.truthy && metadata.hasKey "dalle" && !(metadata.getJ "dalle").isNull then
    let files := env.globFn (joinPath (joinPath env.archiveDir "dalle-generations") filename)
    if files.length > 0 then files
    else
      let files := env.globFn (joinPath (joinPath env.archiveDir "user-*") filename)
      if files.length > 0 then files
      else []
  else []

/-- The asset-pointer prefix rule of `process_image_content`: strip the fixed
scheme prefix and append a glob wildcard, or raise for an unknown scheme. -/
def asset_pattern (asset_pointer : String) : Except Err String :=
  if pyStartsWith asset_pointer "file-service" then .ok (pyDrop asset_pointer 15 ++ "*")
  else if pyStartsWith asset_pointer "sediment" then .ok (pyDrop asset_pointer 11 ++ "*")
  else .error (.unexpectedAssetPointer asset_pointer)

/-- One iteration of the staging loop in `process_image_content`: stage the
file and append one `image_file` unit naming the staged basename. -/
def image_step (env : Env) (author : Json) (recipient : Option Json)
    (out_dir : String) (acc : List Msg × St) (specific_file : String) :
    List Msg × St :=
  let copied := copy_file_to_dir_if_new env acc.2 out_dir specific_file
  (acc.1 ++ [⟨author, recipient, "image_file:" ++ basename copied.1⟩], copied.2)

/-- The tail of `process_image_content` once the match set is known: stage and
emit one unit per file, and print the non-fatal diagnostic when the set is
empty. -/
def image_emit (env : Env) (author : Json) (recipient : Option Json)
    (out_dir : String) (asset_pointer : String) (files : List String)
    (msgs : List Msg) (st : St) : Except Err (List Msg × St) :=
  let folded := files.foldl (image_step env author recipient out_dir) (msgs, st)
  let st2 := if files.isEmpty then
      { folded.2 with prints := folded.2.prints ++ ["could not find image file for " ++ asset_pointer] }
    else folded.2
  .ok (folded.1, st2)

/-- The match set of `process_image_content`: the metadata-guided tiers when
the part carries metadata, then the archive root when those found nothing. -/
def image_files (env : Env) (part : Json) (filename : String) : List String :=
  let files := if part.hasKey "metadata" then find_image env (part.getJ "metadata") filename else []
  if files.isEmpty then env.globFn (joinPath env.archiveDir filename) else files

/-- `process_image_content` once the pointer string is in hand: apply the
prefix rule, search, stage, and emit. -/
def process_image_ptr (env : Env) (part : Json) (author : Json)
    (recipient : Option Json) (out_dir : String) (asset_pointer : String)
    (msgs : List Msg) (st : St) : Except Err (List Msg × St) :=
  match asset_pattern asset_pointer with
  | .error e => .error e
  | .ok filename =>
    image_emit env author recipient out_dir asset_pointer (image_files env part filename) msgs st

/-- `process_image_content`: resolve an `image_asset_pointer` part against the
archive, stage each match, and append one `image_file` unit per match; report a
non-fatal diagnostic when nothing matches. -/
def process_image_content (env : Env) (part : Json) (author : Json)
    (recipient : Option Json) (out_dir : String) (msgs : List Msg) (st : St) :
    Except Err (List Msg × St) :=
  match part.get? "asset_pointer" with
  | none => .error (.keyError "asset_pointer")
  | some (Json.str asset_pointer) =>
    process_image_ptr env part author recipient out_dir asset_pointer msgs st
  | some _ => .error .attrError

/-- One iteration of the `parts` loop in `process_conversation_content`. -/
def process_part (env : Env) (author : Json) (recipient : Option Json)
    (out_dir : String) (acc : List Msg × St) (part : Json) :
    Except Err (List Msg × St) :=
  if !part.truthy then .ok acc
  else match part with
  | Json.obj _ =>
    match part.get? "content_type" with
    | none => .error (.keyError "content_type")
    | some ct =>
      if ct.isStr "image_asset_pointer" then
        process_image_content env part author recipient out_dir acc.1 acc.2
      else .error .someOtherContentType
  | Json.str s => .ok (acc.1 ++ [⟨author, recipient, "conversation:" ++ s ++ "\n"⟩], acc.2)
  | _ => .error .unexpectedConversationPart

/-- `process_conversation_content`: requires `parts` and folds over it. -/
def process_conversation_content (env : Env) (content : Json) (author : Json)
    (recipient : Option Json) (out_dir : String) (msgs : List Msg) (st : St) :
    Except Err (List Msg × St) :=
  match content.get? "parts" with
  | none => .error .unexpectedConversationFormat
  | some (Json.arr parts) => parts.foldlM (process_part env author recipient out_dir) (msgs, st)
  | some _ => .error .notIterable

/-- `process_multimodal_text_content` just delegates. -/
def process_multimodal_text_content (env : Env) (content : Json) (author : Json)
    (recipient : Option Json) (out_dir : String) (msgs : List Msg) (st : St) :
    Except Err (List Msg × St) :=
  process_conversation_content env content author recipient out_dir msgs st

/-- `process_code_content`: one `code` unit from the `text` field. -/
def process_code_content (content : Json) (author : Json) (recipient : Option Json)
    (msgs : List Msg) (st : St) : Except Err (List Msg × St) :=
  match content.get? "text" with
  | none => .error (.keyError "text")
  | some t => .ok (msgs ++ [⟨author, recipient, "code:" ++ pyStr t⟩], st)

/-- One iteration of the `thoughts` loop: both `summary` and `content` are
Python subscripts, then one `thought` unit is appended. -/
def thought_step (author : Json) (recipient : Option Json)
    (acc : List Msg × St) (thought : Json) : Except Err (List Msg × St) :=
  match thought.get? "summary" with
  | none => .error (.keyError "summary")
  | some s =>
    match thought.get? "content" with
    | none => .error (.keyError "content")
    | some c =>
      .ok (acc.1 ++ [⟨author, recipient, "thought:" ++ pyStr s ++ ":" ++ pyStr c⟩], acc.2)

/-- `process_multiple_thoughts_content`: one `thought` unit per entry, in
order, as `thought:{summary}:{content}`. -/
def process_multiple_thoughts_content (content : Json) (author : Json)
    (recipient : Option Json) (msgs : List Msg) (st : St) :
    Except Err (List Msg × St) :=
  match content.get? "thoughts" with
  | some (Json.arr thoughts) =>
    thoughts.foldlM (thought_step author recipient) (msgs, st)
  | some _ => .error .notIterable
  | none => .error (.keyError "thoughts")

/-- `process_thoughts_content`: `thoughts` entries, else a bare `text` rendered
through the `code:` path, else a fatal error. -/
def process_thoughts_content (content : Json) (author : Json) (recipient : Option Json)
    (msgs : List Msg) (st : St) : Except Err (List Msg × St) :=
  if content.hasKey "thoughts" then
    process_multiple_thoughts_content content author recipient msgs st
  else if content.hasKey "text" then
    .ok (msgs ++ [⟨author, recipient, "code:" ++ pyStr (content.getJ "text")⟩], st)
  else .error .unrecognizedThoughtContent

/-- `process_text_upload_content`: write the payload's `text` under its `title`
in the output directory, then emit one `text_file` unit.  `content['text']` and
`content['title']` are Python subscripts, so a missing key raises `KeyError`;
writing a non-string raises before any unit is emitted. -/
def process_text_upload_content (content : Json) (author : Json)
    (recipient : Option Json) (out_dir : String) (msgs : List Msg) (st : St) :
    Except Err (List Msg × St) :=
  match content.get? "text" with
  | none => .error (.keyError "text")
  | some file_contents =>
    match content.get? "title" with
    | none => .error (.keyError "title")
    | some file_name =>
      match file_contents with
      | Json.str contents_s =>
        match create_file_if_new st out_dir (pyStr file_name) contents_s with
        | .error e => .error e
        | .ok (_, st2) =>
          .ok (msgs ++ [⟨author, recipient, "text_file:" ++ pyStr file_name⟩], st2)
      | _ => .error .typeErr

/-- `process_user_editable_content`: requires `user_profile`. -/
def process_user_editable_content (content : Json) (author : Json)
    (recipient : Option Json) (msgs : List Msg) (st : St) :
    Except Err (List Msg × St) :=
  if content.hasKey "user_profile" then
    .ok (msgs ++ [⟨author, recipient, "user_profile:" ++ pyStr (content.getJ "user_profile")⟩], st)
  else .error .unexpectedUserContentFormat

/-- `process_other_content_types`: the generic `{content_type}:{content}` unit,
requiring a `content` field. -/
def process_other_content_types (content : Json) (author : Json)
    (recipient : Option Json) (content_type : Json) (msgs : List Msg) (st : St) :
    Except Err (List Msg × St) :=
  match content.get? "content" with
  | none => .error (.keyError "content")
  | some c => .ok (msgs ++ [⟨author, recipient, pyStr content_type ++ ":" ++ pyStr c⟩], st)

/-- `process_content_type`: the classifier's dispatch chain (the source checks
`'text'` twice; the duplicate branch is unreachable and elided). -/
def process_content_type (env : Env) (content : Json) (author : Json)
    (recipient : Option Json) (content_type : Json) (out_dir : String)
    (msgs : List Msg) (st : St) : Except Err (List Msg × St) :=
  if content_type.isStr "text" then
    process_conversation_content env content author recipient out_dir msgs st
  else if content_type.isStr "code" then
    process_code_content content author recipient msgs st
  else if content_type.isStr "thoughts" then
    process_thoughts_content content author recipient msgs st
  else if content_type.isStr "multimodal_text" then
    process_multimodal_text_content env content author recipient out_dir msgs st
  else if content_type.isStr "user_editable_context" then
    process_user_editable_content content author recipient msgs st
  else if content_type.isStr "execution_output" || content_type.isStr "reasoning_recap"
      || content_type.isStr "tether_browsing_display" || content_type.isStr "tether_quote"
      || content_type.isStr "system_error" then
    .ok (msgs, st)
  else
    process_other_content_types content author recipient content_type msgs st

/-- The sequencer's sort key `key_fn`: the message's `create_time`, falling back
to the node's `create_time`, falling back to `0`, coerced by `float(·)` with
every parse failure caught and turned into `0.0`. -/
def key_fn (n : Json) : ℚ :=
  let msg := (Json.get? n "message").getD (Json.obj [])
  if !msg.truthy then 0
  else
    let t := pyOr (pyOr (msg.getJ "create_time") (n.getJ "create_time")) (Json.num 0)
    (pyFloat? t).getD 0

/-- The value `float(·)` is applied to inside `key_fn` (the `or`-chain over the
message's and the node's `create_time`). -/
def key_source (n : Json) : Json :=
  pyOr (pyOr ((n.getJ "message").getJ "create_time") (n.getJ "create_time")) (Json.num 0)

/-- The node list the sequencer extracts from a conversation mapping: the
mapping's values, in iteration order, restricted to dict nodes carrying a
`message` key. -/
def node_list (kvs : List (String × Json)) : List Json :=
  (kvs.map Prod.snd).filter fun v => v.isObj && v.hasKey "message"

/-- The sequencer's node order: Python's stable `list.sort(key=key_fn)`,
modelled by the stable `insertionSort` under the key comparison. -/
def sorted_nodes (conv : Json) : List Json :=
  match conv.get? "mapping" with
  | some (Json.obj kvs) => List.insertionSort (fun a b => key_fn a ≤ key_fn b) (node_list kvs)
  | _ => []

/-- The per-node body of the sequencer loop: skip empty messages, resolve
author and recipient, require a dict content, and dispatch to the classifier. -/
def process_node (env : Env) (out_dir : String) (node : Json) (msgs : List Msg)
    (st : St) : Except Err (List Msg × St) :=
  let msg := node.getJ "message"
  if !msg.truthy then .ok (msgs, st)
  else match msg with
  | Json.obj _ =>
    let a0 := pyOr (msg.getJ "author") (Json.obj [])
    match a0 with
    | Json.obj _ =>
      let author := get_author a0
      let content := msg.getJ "content"
      let recipient := get_recipient msg
      match content with
      | Json.obj _ =>
        if content.hasKey "content_type" then
          process_content_type env content author recipient (content.getJ "content_type") out_dir msgs st
        else if content.hasKey "text" then
          process_text_upload_content content author recipient out_dir msgs st
        else if content.hasKey "thoughts" then
          process_thoughts_content content author recipient msgs st
        else .error .unrecognizedContentBlock
      | _ => .error .unrecognizedContentFormat
    | _ => .error .attrError
  | _ => .error .unrecognizedMessage

/-- `process_messages`, the tree walker / sequencer: require a dict mapping,
extract and sort the nodes, and fold the per-node processing, returning the
conversation's ordered unit sequence. -/
def process_messages (env : Env) (conv : Json) (out_dir : String) (st : St) :
    Except Err (List Msg × St) :=
  match conv.get? "mapping" with
  | some (Json.obj kvs) =>
    let sorted := List.insertionSort (fun a b => key_fn a ≤ key_fn b) (node_list kvs)
    sorted.foldlM (fun (acc : List Msg × St) node => process_node env out_dir node acc.1 acc.2) ([], st)
  | _ => .error .unrecognizedMapping

/-- Reference per-node decomposition of a sequencer run: process each node with
an empty unit accumulator and collect each node's block of units separately,
threading the side-effect state exactly as `process_messages` does. -/
def process_nodes_blocks (env : Env) (out_dir : String) :
    List Json → St → Except Err (List (List Msg) × St)
  | [], st => .ok ([], st)
  | n :: ns, st =>
    match process_node env out_dir n [] st with
    | .error e => .error e
    | .ok (b, st2) =>
      match process_nodes_blocks env out_dir ns st2 with
      | .error e => .error e
      | .ok (bs, st3) => .ok (b :: bs, st3)

/-- `html.escape` with `quote=True`: the five standard replacements. -/
def html_escape (s : String) : String :=
  String.join (s.toList.map fun c =>
    if c = '&' then "&amp;"
    else if c = '<' then "&lt;"
    else if c = '>' then "&gt;"
    else if c = '"' then "&quot;"
    else if c = '\x27' then "&#x27;"
    else String.singleton c)

/-- Characters kept by `re.sub(r"[^\w\s\-\.\(\)&]+", "", ·)`: word characters
(modelled by ASCII alphanumerics plus underscore), whitespace, and the literal
punctuation of the class. -/
def keepChar (c : Char) : Bool :=
  c.isAlphanum || c = '_' || c.isWhitespace || c = '-' || c = '.' || c = '(' || c = ')' || c = '&'

/-- The maximal non-whitespace runs of a character list. -/
def wsWords : List Char → List Char → List String
  | [], acc => if acc.isEmpty then [] else [String.mk acc.reverse]
  | c :: cs, acc =>
    if c.isWhitespace then
      if acc.isEmpty then wsWords cs [] else String.mk acc.reverse :: wsWords cs []
    else wsWords cs (c :: acc)

/-- `re.sub(r"\s+", " ", ·).strip()`: collapse whitespace runs and trim. -/
def collapseWs (s : String) : String :=
  String.intercalate " " (wsWords s.toList [])

/-- Python `str.rstrip(chars)`. -/
def rstripChars (s : String) (chars : List Char) : String :=
  String.mk (s.toList.reverse.dropWhile (fun c => chars.contains c)).reverse

/-- `canonicalize`: the title-to-filename sanitizer (NFKD normalization is the
environment's Unicode service; `\w` is modelled over ASCII). -/
def canonicalize (env : Env) (value : String) : String :=
  let max_len := 120
  let v1 := env.nfkd value
  let v2 := charReplace '\\' '-' (charReplace '/' '-' v1)
  let v3 := String.mk (v2.toList.filter keepChar)
  let v4 := collapseWs v3
  let v5 := charReplace ' ' '_' v4
  let v6 := if v5 = "" then "untitled" else v5
  if v6.length > max_len then rstripChars (pyTake v6 max_len) ['.', '_', '-'] else v6

/-- The collision loop of `get_unique_path`, with fuel standing in for the
unbounded `while True` (the fuel passed in always exceeds the number of
existing files, so a fresh candidate is reached before it runs out). -/
def unique_loop (fs : FS) (stem suffix : String) : ℕ → ℕ → String
  | 0, i => stem ++ "__" ++ toString i ++ suffix
  | fuel + 1, i =>
    let candidate := stem ++ "__" ++ toString i ++ suffix
    if fs.exists? candidate then unique_loop fs stem suffix fuel (i + 1) else candidate

/-- `get_unique_path`: the canonicalized title plus `.html`, disambiguated with
`__2`, `__3`, … while the candidate already exists. -/
def get_unique_path (env : Env) (fs : FS) (title : String) (out_dir : String) : String :=
  let fname := canonicalize env title ++ ".html"
  let out_path := out_dir ++ "/" ++ fname
  if !fs.exists? out_path then out_path
  else unique_loop fs (pyDropRight out_path 5) ".html" (fs.files.length + 1) 2

/-- `get_date`: `create_time or update_time`, empty string when falsy, external
`strftime` formatting otherwise (`fromtimestamp` on a non-number raises). -/
def get_date (env : Env) (d : Json) : Except Err String :=
  let ts := pyOr (d.getJ "create_time") (d.getJ "update_time")
  if !ts.truthy then .ok ""
  else match ts with
    | Json.num q => .ok (env.formatDate q)
    | Json.bool b => .ok (env.formatDate (if b then 1 else 0))
    | _ => .error .typeErr

/-- `self.role_map` as seeded in the constructor. -/
def role_map (env : Env) (r : String) : Option String :=
  if r = "user" then some env.userName
  else if r = "assistant" then some env.assistantName
  else if r = "system" then some "System"
  else if r = "tool" then some "Tool"
  else if r = "developer" then some "Developer"
  else if r = "function" then some "Function"
  else if r = "unknown" then some "Message"
  else none

/-- Python `str.capitalize()`: first character upper-cased, rest lower-cased. -/
def py_capitalize (s : String) : String :=
  match s.toList with
  | [] => ""
  | c :: cs => String.mk (c.toUpper :: cs.map Char.toLower)

/-- `get_role` applied to one reduced message record: the record carries only
`role`/`audience`/`content` keys, so the `author`/`sender` fallbacks of the
lookup chain are always `None` here. -/
def get_role (env : Env) (m : Msg) : String :=
  let role0 := if m.role.truthy then m.role else Json.null
  let role1 := match role0 with
    | Json.obj _ => pyOr (role0.getJ "role") (role0.getJ "name")
    | _ => role0
  let roleStr := match role1 with
    | Json.str s => pyLower s
    | _ => "unknown"
  match role_map env roleStr with
  | some label => label
  | none => py_capitalize roleStr

/-- `message_to_html`: recover kind and payload from the unit's tagged content
string and emit the message markup (markdown rendering is the environment's
external service). -/
def message_to_html (env : Env) (message : Msg) (role_label : String) :
    Except Err String :=
  let aud := (message.audience).getD Json.null
  let aud := if aud.truthy then aud else Json.str ""
  match aud with
  | Json.str s0 =>
    let recipient := charReplace '.' '-' (pyLower (pyStrip s0))
    let rec_cls := if recipient ≠ "" then " message--r-" ++ recipient else ""
    let rec_badge := if recipient ≠ "" then
        "<span class=\"badge\">" ++ html_escape recipient ++ "</span>"
      else ""
    let headParts : List String :=
      ["<div class=\"message" ++ rec_cls ++ "\">",
       "<div class=\"role\">" ++ html_escape role_label ++ rec_badge ++ "</div>",
       "<div class=\"msg-body\">"]
    let content := message.content
    let bodyE : Except Err String :=
      if pyStartsWith content "image_file:" then
        .ok ("<img src=\"" ++ pyDrop content 11 ++ "\">")
      else if pyStartsWith content "conversation:" then
        .ok (if pyDrop content 13 = "" then "" else env.markdown (pyDrop content 13))
      else if pyStartsWith content "code:" then
        .ok (if pyDrop content 5 = "" then "" else env.markdown (pyDrop content 5))
      else if pyStartsWith content "text_file:" then
        .ok ("<a href=\x27" ++ pyDrop content 10 ++ "\x27 target=\x27_blank\x27>" ++ pyDrop content 10 ++ "</a>\n")
      else if pyStartsWith content "thought:" then
        .ok ("thought:" ++ pyDrop content 8 ++ ">\n")
      else if pyStartsWith content "reasoning_recap:" then
        .ok ("reasoning_recap:" ++ pyDrop content 16 ++ "\x27>\n")
      else if pyStartsWith content "user_profile:" then
        .ok ("user_profile:" ++ pyDrop content 13 ++ "\x27>\n")
      else .error .unrecognizedRenderContent
    match bodyE with
    | .error e => .error e
    | .ok body => .ok (String.intercalate "\n" (headParts ++ [body] ++ ["</div></div>"]))
  | _ => .error .attrError

/-- One card of `build_index`, as the f-string assembles it. -/
def index_card (title fname created : String) : String :=
  "<div class=\"card\" data-title=\"" ++ html_escape (pyLower title) ++ "\">"
    ++ "<h3><a href=\"" ++ html_escape fname ++ "\">" ++ html_escape title ++ "</a></h3>"
    ++ "<div class=\"small\">" ++ html_escape created ++ "</div>"
    ++ "</div>"

/-- `build_index`: one card per index item, spliced into the index template. -/
def build_index (env : Env) (items : List (String × String × String)) : String :=
  let cards := items.map fun it => index_card it.1 it.2.1 it.2.2
  env.indexTemplate "Conversations" (String.intercalate "\n" cards)

/-- The body of the `generate_html` per-conversation loop: title lookup with
`Untitled` fallback, fresh output path, date, sequencing, per-message
rendering, page write, and the index entry (note the title is HTML-escaped
before it is recorded in the index item). -/
def generate_one (env : Env) (out_dir : String) (conv : Json) (st : St) :
    Except Err (St × (String × String × String)) :=
  match conv.get? "title" with
  | none => .error (.keyError "title")
  | some t0 =>
    let t1 := if t0.truthy then t0 else Json.str "Untitled"
    match t1 with
    | Json.str title =>
      let out_path := get_unique_path env st.fs title out_dir
      match get_date env conv with
      | .error e => .error e
      | .ok created =>
        match process_messages env conv out_dir st with
        | .error e => .error e
        | .ok (msgs, st2) =>
          match msgs.mapM (fun m => message_to_html env m (get_role env m)) with
          | .error e => .error e
          | .ok rendered =>
            let titleE := html_escape title
            let body := String.intercalate "\n" rendered
            let page := env.pageTemplate titleE created body
            let st3 := { st2 with fs := st2.fs.write out_path page }
            .ok (st3, (titleE, basename out_path, created))
    | _ => .error .typeErr

/-- The enumerated loop of `generate_html`, including the `if i > 10: break`
that stops after the eleventh conversation. -/
def generate_loop (env : Env) (out_dir : String) :
    ℕ → List Json → St → List (String × String × String) →
    Except Err (St × List (String × String × String))
  | _, [], st, items => .ok (st, items)
  | i, conv :: rest, st, items =>
    if i > 10 then .ok (st, items)
    else
      match generate_one env out_dir conv st with
      | .error e => .error e
      | .ok (st2, item) => generate_loop env out_dir (i + 1) rest st2 (items ++ [item])

/-- `generate_html`: write one page per processed conversation, then the index
listing the processed conversations, then report the page count. -/
def generate_html (env : Env) (convs : List Json) (out_dir : String) (st : St) :
    Except Err (St × List (String × String × String)) :=
  match generate_loop env out_dir 0 convs st [] with
  | .error e => .error e
  | .ok (st2, index_items) =>
    let html := build_index env index_items
    let st3 := { st2 with fs := st2.fs.write (out_dir ++ "/index.html") html }
    let st4 := { st3 with prints := st3.prints ++
      ["Wrote " ++ toString index_items.length ++ " pages to " ++ out_dir ++ " (open index.html)"] }
    .ok (st4, index_items)

/-! Concrete fixtures used by the closed witness and counterexample theorems. -/

/-- A run environment with an empty archive and identity external services. -/
def env0 : Env where
  archiveDir := "archive"
  userName := "User"
  assistantName := "Assistant"
  globFn := fun _ => []
  copyFails := fun _ => false
  archiveContents := fun _ => "bytes"
  nfkd := id
  markdown := fun s => s
  pageTemplate := fun t d b => t ++ "|" ++ d ++ "|" ++ b
  indexTemplate := fun t items => t ++ "|" ++ items
  formatDate := fun _ => "a date"

/-- A run environment whose archive resolves the pattern `AAA*` to one file. -/
def envG : Env :=
  { env0 with globFn := fun p => if p = "archive/AAA*" then ["arch/pic.png"] else [] }

/-- A run environment where the archive resolves `AAA*` but every copy fails. -/
def envF : Env :=
  { envG with copyFails := fun _ => true }

/-- Empty side-effect state. -/
def st0 : St := ⟨⟨[]⟩, []⟩

/-- A minimal well-formed conversation: a title and an empty mapping. -/
def conv0 : Json := Json.obj [("title", Json.str "t"), ("mapping", Json.obj [])]

/-- A plain-text-upload payload (a `text` and a `title`, no `content_type`). -/
def upload0 : Json := Json.obj [("text", Json.str "abc"), ("title", Json.str "notes.txt")]

/-- A conversation whose mapping lists two nodes in anti-chronological order
(`create_time` 5 before 2), each reducing to one `thought` unit. -/
def conv5 : Json := Json.obj [("title", Json.str "c"), ("mapping", Json.obj [
  ("b", Json.obj [("message", Json.obj [
    ("author", Json.obj [("role", Json.str "assistant")]),
    ("create_time", Json.num 5),
    ("content", Json.obj [("content_type", Json.str "thoughts"),
      ("thoughts", Json.arr [Json.obj [("summary", Json.str "s2"), ("content", Json.str "c2")]])])])]),
  ("a", Json.obj [("message", Json.obj [
    ("author", Json.obj [("role", Json.str "user")]),
    ("create_time", Json.num 2),
    ("content", Json.obj [("content_type", Json.str "thoughts"),
      ("thoughts", Json.arr [Json.obj [("summary", Json.str "s1"), ("content", Json.str "c1")]])])])])])]

/-- A node whose message `create_time` is a string that does not parse as a
number. -/
def nodeBadTime : Json := Json.obj [("message", Json.obj [
  ("create_time", Json.str "not-a-number"),
  ("content", Json.obj [("content_type", Json.str "system_error")])])]

/-! ## Structural lemmas

Every reducer only appends to the unit accumulator and the appended block does
not depend on the accumulator, so a sequencer run decomposes into one block of
units per node. -/

theorem except_bind_ok {ε α β : Type} (a : α) (f : α → Except ε β) :
    (Except.ok a >>= f) = f a := rfl

theorem except_bind_error {ε α β : Type} (e : ε) (f : α → Except ε β) :
    ((Except.error e : Except ε α) >>= f) = .error e := rfl

theorem except_map_ok {ε α β : Type} (f : α → β) (a : α) :
    Except.map f (Except.ok a : Except ε α) = .ok (f a) := rfl

theorem except_map_error {ε α β : Type} (f : α → β) (e : ε) :
    Except.map f (Except.error e : Except ε α) = .error e := rfl

/-- The prefix-shift map on reducer results. -/
def shiftRes (pre : List Msg) (r : List Msg × St) : List Msg × St :=
  (pre ++ r.1, r.2)

theorem foldl_shift {α : Type} (step : (List Msg × St) → α → (List Msg × St))
    (hstep : ∀ pre acc x, step (shiftRes pre acc) x = shiftRes pre (step acc x)) :
    ∀ (l : List α) (pre : List Msg) (acc : List Msg × St),
      l.foldl step (shiftRes pre acc) = shiftRes pre (l.foldl step acc) := by
  intro l
  induction l with
  | nil => intro pre acc; rfl
  | cons x xs ih =>
    intro pre acc
    simp only [List.foldl_cons]
    rw [hstep]
    exact ih pre (step acc x)

theorem foldlM_shift {α : Type} (step : (List Msg × St) → α → Except Err (List Msg × St))
    (hstep : ∀ pre acc x, step (shiftRes pre acc) x = Except.map (shiftRes pre) (step acc x)) :
    ∀ (l : List α) (pre : List Msg) (acc : List Msg × St),
      l.foldlM step (shiftRes pre acc) = Except.map (shiftRes pre) (l.foldlM step acc) := by
  intro l
  induction l with
  | nil => intro pre acc; rfl
  | cons x xs ih =>
    intro pre acc
    simp only [List.foldlM_cons]
    rw [hstep]
    cases h : step acc x with
    | error e => simp only [except_map_error, except_bind_error]
    | ok acc2 => simp only [except_map_ok, except_bind_ok]; exact ih pre acc2

theorem image_step_shift (env : Env) (author : Json) (recipient : Option Json)
    (out_dir : String) :
    ∀ pre acc x, image_step env author recipient out_dir (shiftRes pre acc) x
      = shiftRes pre (image_step env author recipient out_dir acc x) := by
  intro pre acc x
  simp only [image_step, shiftRes, List.append_assoc]

theorem image_emit_shift (env : Env) (author : Json) (recipient : Option Json)
    (out_dir : String) (asset_pointer : String) (files : List String)
    (pre msgs : List Msg) (st : St) :
    image_emit env author recipient out_dir asset_pointer files (pre ++ msgs) st
      = Except.map (shiftRes pre) (image_emit env author recipient out_dir asset_pointer files msgs st) := by
  have hfold := foldl_shift (image_step env author recipient out_dir)
    (image_step_shift env author recipient out_dir) files pre (msgs, st)
  unfold image_emit
  rw [show ((pre ++ msgs, st) : List Msg × St) = shiftRes pre (msgs, st) from rfl, hfold]
  cases files.isEmpty <;> rfl

theorem process_image_ptr_shift (env : Env) (part : Json) (author : Json)
    (recipient : Option Json) (out_dir : String) (asset_pointer : String)
    (pre msgs : List Msg) (st : St) :
    process_image_ptr env part author recipient out_dir asset_pointer (pre ++ msgs) st
      = Except.map (shiftRes pre) (process_image_ptr env part author recipient out_dir asset_pointer msgs st) := by
  unfold process_image_ptr
  generalize asset_pattern asset_pointer = r
  cases r with
  | error e => rfl
  | ok filename => exact image_emit_shift env author recipient out_dir asset_pointer _ pre msgs st

theorem process_image_content_shift (env : Env) (part : Json) (author : Json)
    (recipient : Option Json) (out_dir : String) (pre msgs : List Msg) (st : St) :
    process_image_content env part author recipient out_dir (pre ++ msgs) st
      = Except.map (shiftRes pre) (process_image_content env part author recipient out_dir msgs st) := by
  unfold process_image_content
  cases part.get? "asset_pointer" with
  | none => rfl
  | some ap =>
    cases ap with
    | str s => exact process_image_ptr_shift env part author recipient out_dir s pre msgs st
    | null => rfl
    | bool b => rfl
    | num q => rfl
    | arr xs => rfl
    | obj kvs => rfl

theorem process_part_shift (env : Env) (author : Json) (recipient : Option Json)
    (out_dir : String) :
    ∀ pre acc part, process_part env author recipient out_dir (shiftRes pre acc) part
      = Except.map (shiftRes pre) (process_part env author recipient out_dir acc part) := by
  intro pre acc part
  unfold process_part
  cases hT : part.truthy with
  | false => simp [hT, except_map_ok]
  | true =>
    simp only [hT, Bool.not_true, Bool.false_eq_true, if_false]
    cases part with
    | obj kvs =>
      generalize (Json.obj kvs).get? "content_type" = ct?
      cases ct? with
      | none => rfl
      | some ct =>
        cases hS : ct.isStr "image_asset_pointer" with
        | false => simp [hS, except_map_error]
        | true =>
          simp only [hS, if_true]
          simpa using process_image_content_shift env _ author recipient out_dir pre acc.1 acc.2
    | str s => simp [shiftRes, except_map_ok]
    | null => rfl
    | bool b => rfl
    | num q => rfl
    | arr xs => rfl

theorem process_conversation_content_shift (env : Env) (content : Json)
    (author : Json) (recipient : Option Json) (out_dir : String)
    (pre msgs : List Msg) (st : St) :
    process_conversation_content env content author recipient out_dir (pre ++ msgs) st
      = Except.map (shiftRes pre) (process_conversation_content env content author recipient out_dir msgs st) := by
  unfold process_conversation_content
  generalize content.get? "parts" = p?
  cases p? with
  | none => rfl
  | some p =>
    cases p with
    | arr parts =>
      exact foldlM_shift (process_part env author recipient out_dir)
        (process_part_shift env author recipient out_dir) parts pre (msgs, st)
    | null => rfl
    | bool b => rfl
    | num q => rfl
    | str s => rfl
    | obj kvs => rfl

theorem thought_step_shift (author : Json) (recipient : Option Json) :
    ∀ pre acc thought, thought_step author recipient (shiftRes pre acc) thought
      = Except.map (shiftRes pre) (thought_step author recipient acc thought) := by
  intro pre acc thought
  unfold thought_step
  generalize thought.get? "summary" = s?
  cases s? with
  | none => rfl
  | some s =>
    generalize thought.get? "content" = c?
    cases c? with
    | none => rfl
    | some c => simp only [shiftRes, except_map_ok, Except.ok.injEq, Prod.mk.injEq,
        List.append_assoc, and_self]

theorem process_multiple_thoughts_content_shift (content : Json) (author : Json)
    (recipient : Option Json) (pre msgs : List Msg) (st : St) :
    process_multiple_thoughts_content content author recipient (pre ++ msgs) st
      = Except.map (shiftRes pre) (process_multiple_thoughts_content content author recipient msgs st) := by
  unfold process_multiple_thoughts_content
  generalize content.get? "thoughts" = t?
  cases t? with
  | none => rfl
  | some t =>
    cases t with
    | arr thoughts =>
      exact foldlM_shift (thought_step author recipient)
        (thought_step_shift author recipient) thoughts pre (msgs, st)
    | null => rfl
    | bool b => rfl
    | num q => rfl
    | str s => rfl
    | obj kvs => rfl

theorem process_thoughts_content_shift (content : Json) (author : Json)
    (recipient : Option Json) (pre msgs : List Msg) (st : St) :
    process_thoughts_content content author recipient (pre ++ msgs) st
      = Except.map (shiftRes pre) (process_thoughts_content content author recipient msgs st) := by
  unfold process_thoughts_content
  cases h1 : content.hasKey "thoughts" with
  | true =>
    simp only [h1, if_true]
    exact process_multiple_thoughts_content_shift content author recipient pre msgs st
  | false =>
    simp only [h1, Bool.false_eq_true, if_false]
    cases h2 : content.hasKey "text" with
    | true => simp [h2, shiftRes, except_map_ok]
    | false => simp [h2, except_map_error]

theorem process_code_content_shift (content : Json) (author : Json)
    (recipient : Option Json) (pre msgs : List Msg) (st : St) :
    process_code_content content author recipient (pre ++ msgs) st
      = Except.map (shiftRes pre) (process_code_content content author recipient msgs st) := by
  unfold process_code_content
  generalize content.get? "text" = t?
  cases t? with
  | none => rfl
  | some t => simp only [shiftRes, except_map_ok, Except.ok.injEq, Prod.mk.injEq,
      List.append_assoc, and_self]

theorem process_text_upload_content_shift (content : Json) (author : Json)
    (recipient : Option Json) (out_dir : String) (pre msgs : List Msg) (st : St) :
    process_text_upload_content content author recipient out_dir (pre ++ msgs) st
      = Except.map (shiftRes pre) (process_text_upload_content content author recipient out_dir msgs st) := by
  unfold process_text_upload_content
  generalize content.get? "text" = t?
  cases t? with
  | none => rfl
  | some t =>
    generalize content.get? "title" = ti?
    cases ti? with
    | none => rfl
    | some ti =>
      cases t with
      | str tc =>
        simp only []
        generalize create_file_if_new st out_dir (pyStr ti) tc = r
        cases r with
        | error e => rfl
        | ok pr => simp only [shiftRes, except_map_ok, Except.ok.injEq, Prod.mk.injEq,
            List.append_assoc, and_self]
      | null => rfl
      | bool b => rfl
      | num q => rfl
      | arr xs => rfl
      | obj kvs => rfl

theorem process_user_editable_content_shift (content : Json) (author : Json)
    (recipient : Option Json) (pre msgs : List Msg) (st : St) :
    process_user_editable_content content author recipient (pre ++ msgs) st
      = Except.map (shiftRes pre) (process_user_editable_content content author recipient msgs st) := by
  unfold process_user_editable_content
  cases h : content.hasKey "user_profile" with
  | true => simp [h, shiftRes, except_map_ok]
  | false => simp [h, except_map_error]

theorem process_other_content_types_shift (content : Json) (author : Json)
    (recipient : Option Json) (content_type : Json) (pre msgs : List Msg) (st : St) :
    process_other_content_types content author recipient content_type (pre ++ msgs) st
      = Except.map (shiftRes pre) (process_other_content_types content author recipient content_type msgs st) := by
  unfold process_other_content_types
  generalize content.get? "content" = c?
  cases c? with
  | none => rfl
  | some c => simp only [shiftRes, except_map_ok, Except.ok.injEq, Prod.mk.injEq,
      List.append_assoc, and_self]

theorem process_content_type_shift (env : Env) (content : Json) (author : Json)
    (recipient : Option Json) (content_type : Json) (out_dir : String)
    (pre msgs : List Msg) (st : St) :
    process_content_type env content author recipient content_type out_dir (pre ++ msgs) st
      = Except.map (shiftRes pre) (process_content_type env content author recipient content_type out_dir msgs st) := by
  unfold process_content_type
  cases h1 : content_type.isStr "text" with
  | true =>
    simp only [h1, if_pos]
    exact process_conversation_content_shift env content author recipient out_dir pre msgs st
  | false =>
  simp only [h1, Bool.false_eq_true, if_false]
  cases h2 : content_type.isStr "code" with
  | true =>
    simp only [h2, if_pos]
    exact process_code_content_shift content author recipient pre msgs st
  | false =>
  simp only [h2, Bool.false_eq_true, if_false]
  cases h3 : content_type.isStr "thoughts" with
  | true =>
    simp only [h3, if_pos]
    exact process_thoughts_content_shift content author recipient pre msgs st
  | false =>
  simp only [h3, Bool.false_eq_true, if_false]
  cases h4 : content_type.isStr "multimodal_text" with
  | true =>
    simp only [h4, if_pos]
    exact process_conversation_content_shift env content author recipient out_dir pre msgs st
  | false =>
  simp only [h4, Bool.false_eq_true, if_false]
  cases h5 : content_type.isStr "user_editable_context" with
  | true =>
    simp only [h5, if_pos]
    exact process_user_editable_content_shift content author recipient pre msgs st
  | false =>
  simp only [h5, Bool.false_eq_true, if_false]
  cases h6 : (content_type.isStr "execution_output" || content_type.isStr "reasoning_recap"
      || content_type.isStr "tether_browsing_display" || content_type.isStr "tether_quote"
      || content_type.isStr "system_error") with
  | true => simp only [h6, if_pos]; rfl
  | false =>
    simp only [h6, Bool.false_eq_true, if_false]
    exact process_other_content_types_shift content author recipient content_type pre msgs st

theorem process_node_shift (env : Env) (out_dir : String) (node : Json)
    (pre msgs : List Msg) (st : St) :
    process_node env out_dir node (pre ++ msgs) st
      = Except.map (shiftRes pre) (process_node env out_dir node msgs st) := by
  unfold process_node
  cases hT : (node.getJ "message").truthy with
  | false => simp only [hT, Bool.not_false, if_pos]; rfl
  | true =>
  simp only [hT, Bool.not_true, Bool.false_eq_true, if_false]
  cases hM : node.getJ "message" with
  | obj mkvs =>
    simp only []
    cases hA : pyOr ((Json.obj mkvs).getJ "author") (Json.obj []) with
    | obj akvs =>
      simp only []
      cases hC : (Json.obj mkvs).getJ "content" with
      | obj ckvs =>
        simp only []
        cases h1 : (Json.obj ckvs).hasKey "content_type" with
        | true =>
          simp only [h1, if_pos]
          exact process_content_type_shift env _ _ _ _ out_dir pre msgs st
        | false =>
        simp only [h1, Bool.false_eq_true, if_false]
        cases h2 : (Json.obj ckvs).hasKey "text" with
        | true =>
          simp only [h2, if_pos]
          exact process_text_upload_content_shift _ _ _ out_dir pre msgs st
        | false =>
        simp only [h2, Bool.false_eq_true, if_false]
        cases h3 : (Json.obj ckvs).hasKey "thoughts" with
        | true =>
          simp only [h3, if_pos]
          exact process_thoughts_content_shift _ _ _ pre msgs st
        | false => simp only [h3, Bool.false_eq_true, if_false]; rfl
      | null => rfl
      | bool b => rfl
      | num q => rfl
      | str s => rfl
      | arr xs => rfl
    | null => rfl
    | bool b => rfl
    | num q => rfl
    | str s => rfl
    | arr xs => rfl
  | null => rfl
  | bool b => rfl
  | num q => rfl
  | str s => rfl
  | arr xs => rfl

theorem process_nodes_blocks_length (env : Env) (out_dir : String) :
    ∀ (ns : List Json) (st : St) (bs : List (List Msg)) (stF : St),
      process_nodes_blocks env out_dir ns st = .ok (bs, stF) → bs.length = ns.length := by
  intro ns
  induction ns with
  | nil =>
    intro st bs stF h
    simp only [process_nodes_blocks, Except.ok.injEq, Prod.mk.injEq] at h
    simp [← h.1]
  | cons n ns ih =>
    intro st bs stF h
    simp only [process_nodes_blocks] at h
    cases h1 : process_node env out_dir n [] st with
    | error e => rw [h1] at h; exact absurd h (by simp)
    | ok p =>
      obtain ⟨b, st2⟩ := p
      rw [h1] at h
      simp only [] at h
      cases h2 : process_nodes_blocks env out_dir ns st2 with
      | error e => rw [h2] at h; exact absurd h (by simp)
      | ok q =>
        obtain ⟨bs2, st3⟩ := q
        rw [h2] at h
        simp only [Except.ok.injEq, Prod.mk.injEq] at h
        have := ih st2 bs2 st3 (by rw [h2])
        simp [← h.1, this]

theorem foldl_nodes_eq_blocks (env : Env) (out_dir : String) :
    ∀ (ns : List Json) (msgs : List Msg) (st : St),
      ns.foldlM (fun (acc : List Msg × St) node => process_node env out_dir node acc.1 acc.2) (msgs, st)
        = Except.map (fun r : List (List Msg) × St => (msgs ++ r.1.flatten, r.2))
            (process_nodes_blocks env out_dir ns st) := by
  intro ns
  induction ns with
  | nil =>
    intro msgs st
    simp only [List.foldlM_nil, process_nodes_blocks, except_map_ok, List.flatten_nil,
      List.append_nil]
    rfl
  | cons n ns ih =>
    intro msgs st
    simp only [List.foldlM_cons, process_nodes_blocks]
    have hshift : process_node env out_dir n msgs st
        = Except.map (shiftRes msgs) (process_node env out_dir n [] st) := by
      have := process_node_shift env out_dir n msgs [] st
      simpa using this
    rw [hshift]
    cases h1 : process_node env out_dir n [] st with
    | error e => simp [except_map_error, except_bind_error]
    | ok p =>
      obtain ⟨b, st2⟩ := p
      simp only [except_map_ok, except_bind_ok, shiftRes]
      rw [ih (msgs ++ b) st2]
      cases h2 : process_nodes_blocks env out_dir ns st2 with
      | error e => simp [except_map_error]
      | ok q => simp [except_map_ok, List.flatten_cons]

/-- C5: for every conversation whose `mapping` is a mapping, a successful
sequencer run decomposes into one block of `RenderUnit`s per node, in the
sorted node order, and annotating every unit of a block with its source node's
effective timestamp (`key_fn`: message `create_time`, falling back to the
node's `create_time`, falling back to `0.0`) yields a non-decreasing sequence.
Ties keep mapping-iteration order because the embedded sort is the stable
`insertionSort`, mirroring Python's stable `list.sort`. -/
theorem C5_chronological_order (env : Env) (conv : Json) (out_dir : String)
    (st stF : St) (msgs : List Msg)
    (h : process_messages env conv out_dir st = .ok (msgs, stF)) :
    ∃ blocks : List (List Msg),
      process_nodes_blocks env out_dir (sorted_nodes conv) st = .ok (blocks, stF) ∧
      msgs = blocks.flatten ∧
      blocks.length = (sorted_nodes conv).length ∧
      List.Pairwise (· ≤ ·)
        ((((sorted_nodes conv).zip blocks).map fun p => List.replicate p.2.length (key_fn p.1)).flatten) := by
  unfold process_messages at h
  cases hm : conv.get? "mapping" with
  | none => rw [hm] at h; simp at h
  | some m =>
    rw [hm] at h
    cases m with
    | obj kvs =>
      have hs : sorted_nodes conv
          = List.insertionSort (fun a b => key_fn a ≤ key_fn b) (node_list kvs) := by
        unfold sorted_nodes
        rw [hm]
      simp only [] at h
      rw [foldl_nodes_eq_blocks env out_dir] at h
      cases hb : process_nodes_blocks env out_dir
          (List.insertionSort (fun a b => key_fn a ≤ key_fn b) (node_list kvs)) st with
      | error e => rw [hb] at h; simp [except_map_error] at h
      | ok q =>
        obtain ⟨blocks, stQ⟩ := q
        rw [hb] at h
        simp only [except_map_ok, List.nil_append, Except.ok.injEq, Prod.mk.injEq] at h
        obtain ⟨hmsgs, hstF⟩ := h
        refine ⟨blocks, ?_, hmsgs.symm, ?_, ?_⟩
        · rw [hs, hb, hstF]
        · rw [hs]
          exact process_nodes_blocks_length env out_dir _ st blocks stQ hb
        · have hlen : blocks.length
              = (List.insertionSort (fun a b => key_fn a ≤ key_fn b) (node_list kvs)).length :=
            process_nodes_blocks_length env out_dir _ st blocks stQ hb
          haveI : IsTotal Json (fun a b => key_fn a ≤ key_fn b) :=
            ⟨fun a b => le_total (key_fn a) (key_fn b)⟩
          haveI : IsTrans Json (fun a b => key_fn a ≤ key_fn b) :=
            ⟨fun a b c hab hbc => le_trans hab hbc⟩
          have hsorted : List.Sorted (fun a b => key_fn a ≤ key_fn b) (sorted_nodes conv) := by
            rw [hs]
            exact List.sorted_insertionSort (fun a b => key_fn a ≤ key_fn b) (node_list kvs)
          have hlen2 : (sorted_nodes conv).length ≤ blocks.length := by
            rw [hs]; exact le_of_eq hlen.symm
          have hfst : ((sorted_nodes conv).zip blocks).map Prod.fst = sorted_nodes conv :=
            List.map_fst_zip (sorted_nodes conv) blocks hlen2
          have hz : List.Pairwise (fun p q : Json × List Msg => key_fn p.1 ≤ key_fn q.1)
              ((sorted_nodes conv).zip blocks) := by
            have h2 : List.Pairwise (fun a b : Json => key_fn a ≤ key_fn b)
                (((sorted_nodes conv).zip blocks).map Prod.fst) := by
              rw [hfst]; exact hsorted
            have h3 := List.pairwise_map.mp h2
            exact h3
          apply List.pairwise_flatten.mpr
          constructor
          · intro l hl
            obtain ⟨p, hp, rfl⟩ := List.mem_map.mp hl
            exact List.pairwise_replicate.mpr (Or.inr le_rfl)
          · refine hz.map _ ?_
            intro p q hpq x hx y hy
            rw [List.eq_of_mem_replicate hx, List.eq_of_mem_replicate hy]
            exact hpq
    | null => simp at h
    | bool b => simp at h
    | num q => simp at h
    | str s => simp at h
    | arr xs => simp at h

/-- Witness for C5: the concrete two-node conversation `conv5`, listed in
anti-chronological order, is re-ordered and its unit sequence decomposes with
non-decreasing source timestamps. -/
theorem C5_chronological_order_witness :
    ∃ blocks : List (List Msg),
      process_nodes_blocks env0 "out" (sorted_nodes conv5) st0 = .ok (blocks, st0) ∧
      [⟨Json.str "user", none, "thought:s1:c1"⟩,
       ⟨Json.str "assistant", none, "thought:s2:c2"⟩] = blocks.flatten ∧
      blocks.length = (sorted_nodes conv5).length ∧
      List.Pairwise (· ≤ ·)
        ((((sorted_nodes conv5).zip blocks).map fun p => List.replicate p.2.length (key_fn p.1)).flatten) :=
  C5_chronological_order env0 conv5 "out" st0 st0
    [⟨Json.str "user", none, "thought:s1:c1"⟩,
     ⟨Json.str "assistant", none, "thought:s2:c2"⟩] rfl

/-- C6: the sequencer's sort key `key_fn` is a total function into the
timestamp domain, and whenever the value selected by the `create_time`
fallback chain cannot be coerced by `float(·)`, the key is `0.0`; the parse
failure is never propagated as an error. -/
theorem C6_key_fn_fallback (n : Json) (h : pyFloat? (key_source n) = none) :
    key_fn n = 0 := by
  unfold key_fn
  cases hm : Json.get? n "message" with
  | none => rfl
  | some m =>
    simp only [hm, Option.getD]
    cases hT : m.truthy with
    | false => simp [hT]
    | true =>
      simp only [hT, Bool.not_true, Bool.false_eq_true, if_false]
      have hks : key_source n
          = pyOr (pyOr (m.getJ "create_time") (n.getJ "create_time")) (Json.num 0) := by
        unfold key_source Json.getJ
        rw [hm]
        rfl
      rw [← hks, h]

/-- Witness for C6: a node whose message `create_time` is the unparseable
string `not-a-number` gets sort key `0`. -/
theorem C6_key_fn_fallback_witness :
    pyFloat? (key_source nodeBadTime) = none ∧ key_fn nodeBadTime = 0 :=
  ⟨rfl, C6_key_fn_fallback nodeBadTime rfl⟩

/-- C7: pointers beginning with `file-service` strip a fixed 15-character
prefix and append `*`; pointers beginning with `sediment` strip an
11-character prefix and append `*`; any other prefix makes image resolution
fail with the fatal unrecognized-asset-pointer error. -/
theorem C7_pointer_rule (s : String) :
    (pyStartsWith s "file-service" = true → asset_pattern s = .ok (pyDrop s 15 ++ "*")) ∧
    (pyStartsWith s "file-service" = false → pyStartsWith s "sediment" = true →
      asset_pattern s = .ok (pyDrop s 11 ++ "*")) ∧
    (pyStartsWith s "file-service" = false → pyStartsWith s "sediment" = false →
      ∀ (env : Env) (part : Json) (author : Json) (recipient : Option Json)
        (out_dir : String) (msgs : List Msg) (st : St),
        part.get? "asset_pointer" = some (Json.str s) →
        process_image_content env part author recipient out_dir msgs st
          = .error (.unexpectedAssetPointer s)) := by
  refine ⟨?_, ?_, ?_⟩
  · intro h1
    unfold asset_pattern
    simp [h1]
  · intro h1 h2
    unfold asset_pattern
    simp [h1, h2]
  · intro h1 h2 env part author recipient out_dir msgs st hap
    have hpat : asset_pattern s = .error (.unexpectedAssetPointer s) := by
      unfold asset_pattern
      simp [h1, h2]
    unfold process_image_content
    rw [hap]
    simp only []
    unfold process_image_ptr
    rw [hpat]

/-- Witness for C7: one concrete pointer of each scheme, and a pointer of an
unknown scheme failing fatally inside `process_image_content`. -/
theorem C7_pointer_rule_witness :
    asset_pattern "file-service://oai-123" = .ok ("oai-123*") ∧
    asset_pattern "sediment://xyz" = .ok ("xyz*") ∧
    process_image_content env0 (Json.obj [("asset_pointer", Json.str "ftp://zzz")])
      (Json.str "u") none "out" [] st0
      = .error (.unexpectedAssetPointer "ftp://zzz") := by
  refine ⟨?_, ?_, ?_⟩
  · have h := (C7_pointer_rule "file-service://oai-123").1 (by decide)
    rw [h]
    rfl
  · have h := (C7_pointer_rule "sediment://xyz").2.1 (by decide) (by decide)
    rw [h]
    rfl
  · exact (C7_pointer_rule "ftp://zzz").2.2 (by decide) (by decide) env0 _ _ none "out" [] st0 rfl

/-- C8: with a recognized pointer prefix but no file matching in any search
tier, resolution stages nothing, emits no image unit, reports only the
non-fatal could-not-find diagnostic, and returns successfully. -/
theorem C8_missing_asset_nonfatal (env : Env) (part : Json) (author : Json)
    (recipient : Option Json) (out_dir : String) (msgs : List Msg) (st : St)
    (s pat : String)
    (hap : part.get? "asset_pointer" = some (Json.str s))
    (hpat : asset_pattern s = .ok pat)
    (hglob : ∀ p, env.globFn p = []) :
    process_image_content env part author recipient out_dir msgs st
      = .ok (msgs, { st with prints := st.prints ++ ["could not find image file for " ++ s] }) := by
  have hfind : ∀ metadata, find_image env metadata pat = [] := by
    intro metadata
    unfold find_image
    split
    · simp [hglob]
    · rfl
  have hfi : image_files env part pat = [] := by
    unfold image_files
    cases part.hasKey "metadata" <;> simp [hfind, hglob]
  unfold process_image_content
  rw [hap]
  show process_image_ptr env part author recipient out_dir s msgs st = _
  unfold process_image_ptr
  rw [hpat]
  show image_emit env author recipient out_dir s (image_files env part pat) msgs st = _
  rw [hfi]
  rfl

/-- Witness for C8: a `file-service` pointer against the empty archive of
`env0` produces no unit, no error, and one diagnostic line. -/
theorem C8_missing_asset_nonfatal_witness :
    process_image_content env0 (Json.obj [("asset_pointer", Json.str "file-service://AAA")])
      (Json.str "u") none "out" [] st0
      = .ok ([], { st0 with prints := st0.prints ++ ["could not find image file for file-service://AAA"] }) :=
  C8_missing_asset_nonfatal env0 (Json.obj [("asset_pointer", Json.str "file-service://AAA")])
    (Json.str "u") none "out" [] st0 "file-service://AAA" "AAA*" rfl rfl (fun _ => rfl)

theorem thought_fold_closed (author : Json) (recipient : Option Json) :
    ∀ (entries : List (String × String)) (msgs : List Msg) (st : St),
      (entries.map fun e => Json.obj [("summary", Json.str e.1), ("content", Json.str e.2)]).foldlM
        (thought_step author recipient) (msgs, st)
      = .ok (msgs ++ entries.map (fun e => ⟨author, recipient, "thought:" ++ e.1 ++ ":" ++ e.2⟩), st) := by
  intro entries
  induction entries with
  | nil =>
    intro msgs st
    simp only [List.map_nil, List.foldlM_nil, List.append_nil]
    rfl
  | cons e es ih =>
    intro msgs st
    simp only [List.map_cons, List.foldlM_cons]
    have hstep : thought_step author recipient (msgs, st)
        (Json.obj [("summary", Json.str e.1), ("content", Json.str e.2)])
        = .ok (msgs ++ [⟨author, recipient, "thought:" ++ e.1 ++ ":" ++ e.2⟩], st) := rfl
    rw [hstep, except_bind_ok, ih]
    simp [List.append_assoc]

/-- C9: a payload with `content_type: "thoughts"` and a `thoughts` list whose
entries carry string `summary` and `content` reduces to exactly one `thought`
unit per entry, in list order, with payload `{summary}:{content}` (behind the
source's `thought:` kind tag). -/
theorem C9_thought_units (env : Env) (author : Json) (recipient : Option Json)
    (out_dir : String) (msgs : List Msg) (st : St) (entries : List (String × String)) :
    process_content_type env
      (Json.obj [("content_type", Json.str "thoughts"),
        ("thoughts", Json.arr (entries.map fun e =>
          Json.obj [("summary", Json.str e.1), ("content", Json.str e.2)]))])
      author recipient (Json.str "thoughts") out_dir msgs st
      = .ok (msgs ++ entries.map (fun e =>
          ⟨author, recipient, "thought:" ++ e.1 ++ ":" ++ e.2⟩), st) := by
  have hdisp : process_content_type env
      (Json.obj [("content_type", Json.str "thoughts"),
        ("thoughts", Json.arr (entries.map fun e =>
          Json.obj [("summary", Json.str e.1), ("content", Json.str e.2)]))])
      author recipient (Json.str "thoughts") out_dir msgs st
      = (entries.map fun e => Json.obj [("summary", Json.str e.1), ("content", Json.str e.2)]).foldlM
          (thought_step author recipient) (msgs, st) := rfl
  rw [hdisp]
  exact thought_fold_closed author recipient entries msgs st

theorem copy_file_dest (env : Env) (st : St) (out_dir filename : String) :
    (copy_file_to_dir_if_new env st out_dir filename).1 = joinPath out_dir (basename filename) := by
  unfold copy_file_to_dir_if_new
  dsimp only []
  cases st.fs.exists? (joinPath out_dir (basename filename)) <;>
    cases env.copyFails filename <;> rfl

/-- C10: staging an already-resolved file never raises.  The returned path is
always the destination basename path; an existing destination leaves the state
untouched; a failing copy is swallowed with only a printed diagnostic and the
destination path is still returned; and `process_image_content` emits the
`image_file` unit naming that basename whether or not the copy succeeded. -/
theorem C10_staging_total (env : Env) (st : St) (out_dir filename : String) :
    (copy_file_to_dir_if_new env st out_dir filename).1 = joinPath out_dir (basename filename) ∧
    (st.fs.exists? (joinPath out_dir (basename filename)) = true →
      (copy_file_to_dir_if_new env st out_dir filename).2 = st) ∧
    (st.fs.exists? (joinPath out_dir (basename filename)) = false →
      env.copyFails filename = true →
      (copy_file_to_dir_if_new env st out_dir filename).2
        = { st with prints := st.prints ++ ["file exists: " ++ joinPath out_dir (basename filename)] }) ∧
    (∀ (author : Json) (recipient : Option Json) (msgs : List Msg) (ptr : String),
      pyStartsWith ptr "file-service" = true →
      env.globFn (joinPath env.archiveDir (pyDrop ptr 15 ++ "*")) = [filename] →
      Except.map Prod.fst
        (process_image_content env (Json.obj [("asset_pointer", Json.str ptr)])
          author recipient out_dir msgs st)
        = .ok (msgs ++ [⟨author, recipient,
            "image_file:" ++ basename (joinPath out_dir (basename filename))⟩])) := by
  refine ⟨copy_file_dest env st out_dir filename, ?_, ?_, ?_⟩
  · intro hex
    unfold copy_file_to_dir_if_new
    simp [hex]
  · intro hex hcf
    unfold copy_file_to_dir_if_new
    simp [hex, hcf]
  · intro author recipient msgs ptr hsw hglob
    have hpat : asset_pattern ptr = .ok (pyDrop ptr 15 ++ "*") := by
      unfold asset_pattern
      simp [hsw]
    have hfiles : image_files env (Json.obj [("asset_pointer", Json.str ptr)])
        (pyDrop ptr 15 ++ "*") = [filename] := by
      unfold image_files
      show env.globFn (joinPath env.archiveDir (pyDrop ptr 15 ++ "*")) = [filename]
      exact hglob
    unfold process_image_content
    show Except.map Prod.fst
        (process_image_ptr env (Json.obj [("asset_pointer", Json.str ptr)])
          author recipient out_dir ptr msgs st) = _
    unfold process_image_ptr
    rw [hpat]
    show Except.map Prod.fst
        (image_emit env author recipient out_dir ptr
          (image_files env (Json.obj [("asset_pointer", Json.str ptr)]) (pyDrop ptr 15 ++ "*"))
          msgs st) = _
    rw [hfiles]
    unfold image_emit image_step
    simp only [List.foldl_cons, List.foldl_nil, List.isEmpty_cons, except_map_ok]
    rw [copy_file_dest]

/-- Witness for C10: with every copy failing (`envF`), staging still returns
the destination path, only prints, and the image unit naming the basename is
still emitted. -/
theorem C10_staging_total_witness :
    (copy_file_to_dir_if_new envF st0 "out" "arch/pic.png").1 = "out/pic.png" ∧
    (copy_file_to_dir_if_new envF st0 "out" "arch/pic.png").2
      = { st0 with prints := ["file exists: out/pic.png"] } ∧
    Except.map Prod.fst
      (process_image_content envF (Json.obj [("asset_pointer", Json.str "file-service://AAA")])
        (Json.str "u") none "out" [] st0)
      = .ok [⟨Json.str "u", none, "image_file:pic.png"⟩] := by
  have h := C10_staging_total envF st0 "out" "arch/pic.png"
  refine ⟨?_, ?_, ?_⟩
  · rw [h.1]
    rfl
  · rw [h.2.2.1 rfl rfl]
    rfl
  · rw [h.2.2.2 (Json.str "u") none [] "file-service://AAA" rfl rfl]
    rfl

/-- C1 (code bug): the `generate_html` loop contains `if i > 10: break`, so
only the first eleven conversations get pages and index entries.  Twelve
minimal conversations produce an index of eleven entries (and eleven written
pages), not twelve. -/
theorem C1_truncation :
    Except.map (fun r : St × List (String × String × String) => r.2.length)
      (generate_html env0 (List.replicate 12 conv0) "out" st0) = .ok 11 ∧
    (List.replicate 12 conv0).length = 12 :=
  ⟨rfl, rfl⟩

/-- C2 (code bug): reducing the same plain-text-upload payload twice into the
same output directory raises on the second reduction: `create_file_if_new`
opens the file with mode `x` and its `except` clause re-raises the
`FileExistsError` instead of skipping silently.  The first reduction writes
the file and emits the `text_file` unit; the second errors. -/
theorem C2_second_upload_raises :
    process_text_upload_content upload0 (Json.str "user") none "out" [] st0
      = .ok ([⟨Json.str "user", none, "text_file:notes.txt"⟩],
             ⟨⟨[("out/notes.txt", "abc")]⟩, []⟩) ∧
    (FS.mk [("out/notes.txt", "abc")]).read? "out/notes.txt" = some "abc" ∧
    process_text_upload_content upload0 (Json.str "user") none "out" []
      ⟨⟨[("out/notes.txt", "abc")]⟩, []⟩
      = .error (.fileExists "out/notes.txt") :=
  ⟨rfl, rfl, rfl⟩

/-- Counterexample to C3: a payload carrying `text` but no `title` is not
tolerated — the sequencer routes it to the upload reducer, which raises
`KeyError` on the `title` subscript, and no file is written. -/
theorem C3_counterexample :
    process_node env0 "out"
      (Json.obj [("message", Json.obj [
        ("author", Json.obj [("role", Json.str "user")]),
        ("content", Json.obj [("text", Json.str "abc")])])])
      [] st0
      = .error (.keyError "title") :=
  rfl

/-- C3 amended: for every content payload with a `text` field and no `title`,
the Plain Text Upload Reducer fails with `KeyError("title")` (it does not
tolerate the missing title, and no file is written under any name). -/
theorem C3_missing_title_raises (content : Json) (author : Json)
    (recipient : Option Json) (out_dir : String) (msgs : List Msg) (st : St)
    (htext : (content.get? "text").isSome = true)
    (htitle : content.get? "title" = none) :
    process_text_upload_content content author recipient out_dir msgs st
      = .error (.keyError "title") := by
  unfold process_text_upload_content
  cases ht : content.get? "text" with
  | none => rw [ht] at htext; simp at htext
  | some t => rw [htitle]

/-- Witness for the amended C3 at the concrete payload `{text: "abc"}`. -/
theorem C3_missing_title_raises_witness :
    process_text_upload_content (Json.obj [("text", Json.str "abc")])
      (Json.str "u") none "out" [] st0
      = .error (.keyError "title") :=
  C3_missing_title_raises (Json.obj [("text", Json.str "abc")])
    (Json.str "u") none "out" [] st0 rfl rfl

/-- Counterexample to C4: the conversation reducer appends a newline to every
string part, so the payload of the emitted unit (the content behind the
13-character `conversation:` kind tag, exactly as the renderer recovers it) is
the part followed by a newline, not the part itself. -/
theorem C4_counterexample :
    process_conversation_content env0
      (Json.obj [("content_type", Json.str "text"), ("parts", Json.arr [Json.str "hello "])])
      (Json.str "u") none "out" [] st0
      = .ok ([⟨Json.str "u", none, "conversation:hello \n"⟩], st0) ∧
    pyDrop "conversation:hello \n" 13 ≠ "hello " :=
  ⟨rfl, by decide⟩

theorem image_one_file (env : Env) (part : Json) (author : Json)
    (recipient : Option Json) (out_dir : String) (msgs : List Msg) (st : St)
    (s pat f : String)
    (hap : part.get? "asset_pointer" = some (Json.str s))
    (hpat : asset_pattern s = .ok pat)
    (hfiles : image_files env part pat = [f]) :
    process_image_content env part author recipient out_dir msgs st
      = .ok (msgs ++ [⟨author, recipient,
          "image_file:" ++ basename (joinPath out_dir (basename f))⟩],
          (copy_file_to_dir_if_new env st out_dir f).2) := by
  unfold process_image_content
  rw [hap]
  show process_image_ptr env part author recipient out_dir s msgs st = _
  unfold process_image_ptr
  rw [hpat]
  show image_emit env author recipient out_dir s (image_files env part pat) msgs st = _
  rw [hfiles]
  unfold image_emit image_step
  simp only [List.foldl_cons, List.foldl_nil, List.isEmpty_cons, Bool.false_eq_true, if_false]
  rw [copy_file_dest]

/-- C4 amended: each non-empty string part emits one `conversation` unit whose
payload is the part with a trailing newline appended, and the block
`["hello ", {image_asset_pointer}, "world"]` (with the pointer resolving to
exactly one archive file) yields exactly three units in that order:
conversation text, one image unit, conversation text. -/
theorem C4_parts_roundtrip (env : Env) (author : Json) (recipient : Option Json)
    (out_dir : String) (st : St) (s1 s2 ptr f : String)
    (h1 : s1 ≠ "") (h2 : s2 ≠ "")
    (hsw : pyStartsWith ptr "file-service" = true)
    (hglob : env.globFn (joinPath env.archiveDir (pyDrop ptr 15 ++ "*")) = [f]) :
    Except.map Prod.fst (process_conversation_content env
      (Json.obj [("content_type", Json.str "text"),
        ("parts", Json.arr [Json.str s1,
          Json.obj [("content_type", Json.str "image_asset_pointer"),
                    ("asset_pointer", Json.str ptr)],
          Json.str s2])])
      author recipient out_dir [] st)
      = .ok [⟨author, recipient, "conversation:" ++ s1 ++ "\n"⟩,
             ⟨author, recipient, "image_file:" ++ basename (joinPath out_dir (basename f))⟩,
             ⟨author, recipient, "conversation:" ++ s2 ++ "\n"⟩] := by
  have hT1 : (Json.str s1).truthy = true := by
    simp [Json.truthy, h1]
  have hT2 : (Json.str s2).truthy = true := by
    simp [Json.truthy, h2]
  have hpat : asset_pattern ptr = .ok (pyDrop ptr 15 ++ "*") := by
    unfold asset_pattern
    simp [hsw]
  have hfiles : image_files env
      (Json.obj [("content_type", Json.str "image_asset_pointer"),
                 ("asset_pointer", Json.str ptr)])
      (pyDrop ptr 15 ++ "*") = [f] := by
    unfold image_files
    show env.globFn (joinPath env.archiveDir (pyDrop ptr 15 ++ "*")) = [f]
    exact hglob
  have hp1 : process_part env author recipient out_dir ([], st) (Json.str s1)
      = .ok ([⟨author, recipient, "conversation:" ++ s1 ++ "\n"⟩], st) := by
    unfold process_part
    rw [hT1]
    rfl
  have hp2 : process_part env author recipient out_dir
      ([⟨author, recipient, "conversation:" ++ s1 ++ "\n"⟩], st)
      (Json.obj [("content_type", Json.str "image_asset_pointer"),
                 ("asset_pointer", Json.str ptr)])
      = .ok ([⟨author, recipient, "conversation:" ++ s1 ++ "\n"⟩,
              ⟨author, recipient, "image_file:" ++ basename (joinPath out_dir (basename f))⟩],
             (copy_file_to_dir_if_new env st out_dir f).2) := by
    unfold process_part
    show process_image_content env
      (Json.obj [("content_type", Json.str "image_asset_pointer"),
                 ("asset_pointer", Json.str ptr)])
      author recipient out_dir
      [⟨author, recipient, "conversation:" ++ s1 ++ "\n"⟩] st = _
    rw [image_one_file env
      (Json.obj [("content_type", Json.str "image_asset_pointer"),
                 ("asset_pointer", Json.str ptr)])
      author recipient out_dir
      [⟨author, recipient, "conversation:" ++ s1 ++ "\n"⟩] st ptr
      (pyDrop ptr 15 ++ "*") f rfl hpat hfiles]
    rfl
  have hp3 : process_part env author recipient out_dir
      ([⟨author, recipient, "conversation:" ++ s1 ++ "\n"⟩,
        ⟨author, recipient, "image_file:" ++ basename (joinPath out_dir (basename f))⟩],
       (copy_file_to_dir_if_new env st out_dir f).2) (Json.str s2)
      = .ok ([⟨author, recipient, "conversation:" ++ s1 ++ "\n"⟩,
              ⟨author, recipient, "image_file:" ++ basename (joinPath out_dir (basename f))⟩,
              ⟨author, recipient, "conversation:" ++ s2 ++ "\n"⟩],
             (copy_file_to_dir_if_new env st out_dir f).2) := by
    unfold process_part
    rw [hT2]
    rfl
  show Except.map Prod.fst (List.foldlM (process_part env author recipient out_dir) ([], st)
      [Json.str s1,
       Json.obj [("content_type", Json.str "image_asset_pointer"),
                 ("asset_pointer", Json.str ptr)],
       Json.str s2]) = _
  rw [List.foldlM_cons, hp1, except_bind_ok, List.foldlM_cons, hp2, except_bind_ok,
      List.foldlM_cons, hp3, except_bind_ok, List.foldlM_nil]
  rfl

/-- Witness for the amended C4 at the concrete parts
`["hello ", {file-service pointer}, "world"]` against the one-file archive of
`envG`. -/
theorem C4_parts_roundtrip_witness :
    Except.map Prod.fst (process_conversation_content envG
      (Json.obj [("content_type", Json.str "text"),
        ("parts", Json.arr [Json.str "hello ",
          Json.obj [("content_type", Json.str "image_asset_pointer"),
                    ("asset_pointer", Json.str "file-service://AAA")],
          Json.str "world"])])
      (Json.str "u") none "out" [] st0)
      = .ok [⟨Json.str "u", none, "conversation:hello \n"⟩,
             ⟨Json.str "u", none, "image_file:pic.png"⟩,
             ⟨Json.str "u", none, "conversation:world\n"⟩] := by
  have h := C4_parts_roundtrip envG (Json.str "u") none "out" st0
    "hello " "world" "file-service://AAA" "arch/pic.png"
    (by decide) (by decide) (by decide) rfl
  rw [h]
  rfl
